import Mathlib

/-!
Verification development for the `context_compaction` extension.

The Python source is shallowly embedded: dictionaries become structures,
`None` becomes `Option`, Python exceptions become `Except Unit`, Python
`float` ratios are modelled as exact rationals (`ℚ`), and the mutable
process-wide `chat_contexts` dictionary becomes an explicit association
list threaded through the request/response filters.
-/

/-! ## Python string primitives

Char-level embeddings of the Python `str` methods the source uses
(`in`, `.lower()`, `.upper()`, `.strip()`, `.startswith(...)`). -/

/-- Is the first list a prefix of the second (char comparison)? -/
def listPre : List Char → List Char → Bool
  | [], _ => true
  | _ :: _, [] => false
  | a :: as, b :: bs => a == b && listPre as bs

/-- Is `needle` a contiguous infix of the list? -/
def listInf (needle : List Char) : List Char → Bool
  | [] => listPre needle []
  | b :: bs => listPre needle (b :: bs) || listInf needle bs

/-- Python `needle in hay` for strings. -/
def substrOf (needle hay : String) : Bool := listInf needle.data hay.data

/-- ASCII lowering of one character, as Python `str.lower` acts on ASCII. -/
def lowerChar (c : Char) : Char :=
  if 65 ≤ c.toNat ∧ c.toNat ≤ 90 then Char.ofNat (c.toNat + 32) else c

/-- Python `s.lower()`. -/
def pyLower (s : String) : String := String.mk (s.data.map lowerChar)

/-- ASCII raising of one character, as Python `str.upper` acts on ASCII. -/
def upperChar (c : Char) : Char :=
  if 97 ≤ c.toNat ∧ c.toNat ≤ 122 then Char.ofNat (c.toNat - 32) else c

/-- Python `s.upper()`. -/
def pyUpper (s : String) : String := String.mk (s.data.map upperChar)

/-- Python `s.strip()`: drop leading and trailing whitespace. -/
def pyStrip (s : String) : String :=
  String.mk (((s.data.dropWhile Char.isWhitespace).reverse.dropWhile Char.isWhitespace).reverse)

/-- Python `s.startswith(pre)`. -/
def strStarts (pre s : String) : Bool := listPre pre.data s.data

/-! ## CompactionConfig (src/__init__.py lines 17-34) -/

/-- The default `summary_prompt` string of `CompactionConfig`. -/
def default_summary_prompt : String :=
  "Please provide a comprehensive summary of the conversation so far. Preserve:\n- All critical context and decisions\n- User preferences and constraints\n- Technical details and requirements\n- Code snippets and configurations\n- Conversation flow and key topics\n\nBe thorough but concise. This summary will replace the conversation history."

/-- The default `simple_prompt` string of `CompactionConfig`. -/
def default_simple_prompt : String :=
  "Summarize this conversation concisely. Include: key decisions, requirements, code context, and current task. Be brief."

/-- Embeds `CompactionConfig` dataclass; `threshold` (a Python float) is modelled as ℚ. -/
structure CompactionConfig where
  enabled : Bool := true
  threshold : ℚ := 4/5
  provider : Option String := none
  model : Option String := none
  notify_user : Bool := true
  use_simple_prompt : Bool := false
  summary_prompt : String := default_summary_prompt
  simple_prompt : String := default_simple_prompt
deriving DecidableEq, Repr

/-! ## Messages (plain-string content, as used throughout src/__init__.py) -/

/-- A chat message as handled by `__init__.py` (role and plain text content). -/
structure Msg where
  role : String
  content : String
deriving DecidableEq, Repr

/-! ## apply_compaction (src/__init__.py lines 309-330) -/

/-- The user-visible notice appended to the summary when `notify_user` is set
(f-string at line 322). -/
def compaction_notice (n : Nat) : String :=
  "\n\n---\n*Note: Context compacted to save memory. " ++ toString n ++
    " messages summarized into this summary.*"

/-- The content of the synthetic summary message built at lines 318-323. -/
def compaction_summary_content (cfg : CompactionConfig) (messages : List Msg)
    (summary : String) : String :=
  let base := "[Context Summary]\n\n" ++ summary
  if cfg.notify_user then base ++ compaction_notice messages.length else base

/-- Embeds `apply_compaction(messages, summary)`: keep system messages, insert the
summary message, keep `messages[-2:] if len(messages) > 2 else messages`. -/
def apply_compaction (cfg : CompactionConfig) (messages : List Msg)
    (summary : String) : List Msg :=
  let system_messages := messages.filter (fun m => m.role == "system")
  let recent_messages :=
    if messages.length > 2 then messages.drop (messages.length - 2) else messages
  system_messages ++
    [{ role := "assistant", content := compaction_summary_content cfg messages summary }] ++
    recent_messages

/-- The last `min n (length l)` elements of `l` (used to state the claim about
the tail kept by `apply_compaction`). -/
def lastN (n : Nat) (l : List Msg) : List Msg := l.drop (l.length - min n l.length)

/-! ## Provider metadata and resolver (src/__init__.py lines 188-258) -/

/-- The `model_info(model)` result: at most a nested `limit.context` value.
`none` stands for Python `None` (or a falsy info dict). -/
structure ModelInfo where
  limit_context : Option Int
deriving DecidableEq, Repr

/-- A provider as consulted by `get_model_context_limit`; `model_info` may
raise (`Except.error`) or return `None` (`Except.ok none`). -/
structure Provider where
  has_model_info : Bool
  model_info : String → Except Unit (Option ModelInfo)

/-! ## Summarization request/response shapes (src/__init__.py lines 261-296) -/

/-- The `message` dict inside a completion choice; `content` may be absent. -/
structure SummaryMsgDict where
  content : Option String
deriving DecidableEq, Repr

/-- One entry of `response['choices']`; the `message` key may be absent. -/
structure SummaryChoice where
  message : Option SummaryMsgDict
deriving DecidableEq, Repr

/-- A chat-completion response; the `choices` key may be absent. -/
structure SummaryResponse where
  choices : Option (List SummaryChoice)
deriving DecidableEq, Repr

/-- The request dict built by `compact_conversation` (lines 273-281); `none`
fields model keys removed by the `if v is not None` filtering. -/
structure SummaryRequest where
  messages : List Msg
  model : Option String
  provider : Option String
  temperature : ℚ
deriving DecidableEq, Repr

/-- The extension context: provider registry plus the chat-completion
capability. `has_get_provider`/`has_get_providers` model the `hasattr` checks. -/
structure Ctx where
  has_get_provider : Bool
  get_provider : String → Except Unit (Option Provider)
  has_get_providers : Bool
  get_providers : List (String × Provider)
  chat_completion : SummaryRequest → Except Unit SummaryResponse

/-! ## estimate_context_limit_fallback (src/__init__.py lines 224-258) -/

/-- Static heuristic table applied to `model_lower = model.lower()`, first
match wins (lines 226-258). -/
def fallback_table (model_lower : String) : Int :=
  if substrOf "gpt-4-turbo" model_lower || substrOf "gpt-4-1106" model_lower then 128000
  else if substrOf "gpt-4-32k" model_lower then 32768
  else if substrOf "gpt-4" model_lower then 8192
  else if substrOf "gpt-3.5-turbo-16k" model_lower then 16384
  else if substrOf "gpt-3.5-turbo" model_lower then 4096
  else if substrOf "claude-3-opus" model_lower || substrOf "claude-3-sonnet" model_lower ||
          substrOf "claude-3-haiku" model_lower then 200000
  else if substrOf "claude-2" model_lower then 100000
  else if substrOf "claude" model_lower then 100000
  else if substrOf "llama" model_lower || substrOf "mistral" model_lower ||
          substrOf "mixtral" model_lower then
    if substrOf "32k" model_lower then 32768
    else if substrOf "16k" model_lower then 16384
    else 8192
  else 8192

/-- Embeds `estimate_context_limit_fallback(model)` (lines 224-258): lower the model
name, then consult the static table. -/
def estimate_context_limit_fallback (model : String) : Int :=
  fallback_table (pyLower model)

/-! ## get_model_context_limit (src/__init__.py lines 188-221)

The Python function wraps BOTH provider lookups (named provider, then the scan
of all providers) in a single `try`; the embedding keeps that structure:
`provider_steps` propagates the first raised exception, and
`get_model_context_limit` catches it and falls back to the heuristic table. -/

/-- Step 1 (lines 192-202): ask the named provider. `Except.ok none` means
"no data from this step" (in Python: fall through to the scan);
`Except.error` models an exception raised inside the `try` block. -/
def named_provider_step (ctx : Ctx) (provider_name model : String) :
    Except Unit (Option Int) :=
  if ctx.has_get_provider then
    (if provider_name ≠ "" then ctx.get_provider provider_name else Except.ok none).bind
      (fun po =>
        match po with
        | some p =>
          if p.has_model_info then
            (p.model_info model).map (fun mio =>
              match mio with
              | some mi =>
                match mi.limit_context with
                | some c => if c ≠ 0 then some c else none
                | none => none
              | none => none)
          else Except.ok none
        | none => Except.ok none)
  else Except.ok none

/-- Step 2 (lines 205-215): scan every registered provider; a raised
exception aborts the whole loop (it is caught only by the outer handler). -/
def scan_providers : List (String × Provider) → String → Except Unit (Option Int)
  | [], _ => Except.ok none
  | (_, p) :: rest, model =>
    if p.has_model_info then
      (p.model_info model).bind (fun mio =>
        match mio with
        | some mi =>
          match mi.limit_context with
          | some c => if c ≠ 0 then Except.ok (some c) else scan_providers rest model
          | none => scan_providers rest model
        | none => scan_providers rest model)
    else scan_providers rest model

/-- The body of the `try` block of `get_model_context_limit`: step 1, then
(only if step 1 returned without data and without raising) step 2. -/
def provider_steps (ctx : Ctx) (provider_name model : String) :
    Except Unit (Option Int) :=
  (named_provider_step ctx provider_name model).bind (fun r =>
    match r with
    | some c => Except.ok (some c)
    | none =>
      if ctx.has_get_providers then scan_providers ctx.get_providers model
      else Except.ok none)

/-- Embeds `get_model_context_limit(ctx, provider_name, model)`: any exception in the
provider steps is caught (line 217) and control reaches the fallback table. -/
def get_model_context_limit (ctx : Ctx) (provider_name model : String) : Int :=
  match provider_steps ctx provider_name model with
  | Except.ok (some c) => c
  | Except.ok none => estimate_context_limit_fallback model
  | Except.error _ => estimate_context_limit_fallback model

/-! ## compact_conversation (src/__init__.py lines 261-296) -/

/-- Python `a or b` on optional strings (`''` and `None` are falsy). -/
def pyOrStr (a b : Option String) : Option String :=
  match a with
  | none => b
  | some s => if s = "" then b else some s

/-- Embeds `format_messages_for_summary(messages)` (lines 299-306). -/
def format_messages_for_summary (messages : List Msg) : String :=
  String.intercalate "\n\n"
    ((messages.enum).map (fun p =>
      "[" ++ toString (p.1 + 1) ++ "] " ++ pyUpper p.2.role ++ ": " ++ p.2.content))

/-- The summarization request built at lines 263-281. -/
def build_summary_request (cfg : CompactionConfig) (messages : List Msg)
    (provider model : Option String) : SummaryRequest :=
  let prompt := if cfg.use_simple_prompt then cfg.simple_prompt else cfg.summary_prompt
  { messages :=
      [{ role := "user", content := prompt },
       { role := "user",
         content := "Conversation to summarize:\n\n" ++ format_messages_for_summary messages }],
    model := pyOrStr model cfg.model,
    provider := pyOrStr provider cfg.provider,
    temperature := 3/10 }

/-- Embeds `response.get('choices', [{}])[0].get('message', {}).get('content', '')`
(line 286). Indexing an explicitly-present empty `choices` list raises. -/
def extract_summary_content (resp : SummaryResponse) : Except Unit String :=
  match resp.choices.getD [{ message := none }] with
  | [] => Except.error ()
  | c :: _ => Except.ok ((c.message.getD { content := none }).content.getD "")

/-- Embeds `compact_conversation(ctx, messages, provider, model)` (lines 261-296):
returns the extracted content if non-empty, `none` on an exception or an
empty extraction. No trimming is performed on the extracted content. -/
def compact_conversation (ctx : Ctx) (cfg : CompactionConfig) (messages : List Msg)
    (provider model : Option String) : Option String :=
  let request := build_summary_request cfg messages provider model
  match ctx.chat_completion request with
  | Except.error _ => none
  | Except.ok resp =>
    match extract_summary_content resp with
    | Except.error _ => none
    | Except.ok s => if s ≠ "" then some s else none

/-! ## Conversation state and filters (src/__init__.py lines 99-185) -/

/-- One entry of the `chat_contexts` dictionary (lines 155-164).
`usage_ratio` (a Python float) is modelled as an exact rational. -/
structure ConvState where
  usage_ratio : ℚ
  needs_compaction : Bool
  message_count : Nat
  compaction_count : Nat
deriving DecidableEq, Repr

/-- The `chat_contexts` dictionary, as an association list (insertion order,
matching Python dict semantics). -/
def Store : Type := List (String × ConvState)

/-- Dictionary lookup. -/
def storeGet : Store → String → Option ConvState
  | [], _ => none
  | (k', v) :: rest, k => if k' = k then some v else storeGet rest k

/-- Dictionary write: replace in place if the key exists, else append. -/
def storeSet : Store → String → ConvState → Store
  | [], k, v => [(k, v)]
  | (k', v') :: rest, k, v =>
    if k' = k then (k, v) :: rest else (k', v') :: storeSet rest k v

/-- The request/response dicts seen by the filters; absent keys are `none`. -/
structure RequestData where
  provider : Option String
  model : Option String
  messages : List Msg
deriving DecidableEq, Repr

/-- The `usage` dict of a response. -/
structure UsageData where
  prompt_tokens : Option Int
  total_tokens : Option Int
deriving DecidableEq, Repr

/-- A response dict as consumed by `on_response`; only `usage` matters. -/
structure ResponseData where
  usage : Option UsageData
deriving DecidableEq, Repr

/-- A deterministic stand-in for `str(hash(str(messages[0])))` (line 184):
Python's hash of the stringified first message is modelled by an injective
textual fingerprint of that message. -/
def msg_fingerprint (m : Msg) : String :=
  "role=" ++ m.role ++ ";content=" ++ m.content

/-- Embeds `get_conversation_id(request_data)` (lines 178-185). -/
def get_conversation_id (req : RequestData) : String :=
  match req.messages with
  | [] => "default"
  | m :: _ => "h" ++ msg_fingerprint m

/-- The usage-monitoring step of `on_response` (lines 146-169): guard against
a zero context limit, record the ratio and message count (creating the state
entry on first sight), then arm `needs_compaction` when the ratio reaches the
threshold. -/
def observed_state (cfg : CompactionConfig) (store : Store) (conversation_id : String)
    (prompt_tokens context_limit : Int) (message_count : Nat) : ConvState :=
  let usage_ratio : ℚ := (prompt_tokens : ℚ) / (context_limit : ℚ)
  let st :=
    match storeGet store conversation_id with
    | none =>
      { usage_ratio := usage_ratio, needs_compaction := false,
        message_count := message_count, compaction_count := 0 }
    | some st0 =>
      { st0 with usage_ratio := usage_ratio, message_count := message_count }
  if cfg.threshold ≤ usage_ratio then { st with needs_compaction := true } else st

/-- The full usage-monitoring step: skip entirely on a zero limit, else write
the state computed by `observed_state`. -/
def observe (cfg : CompactionConfig) (store : Store) (conversation_id : String)
    (prompt_tokens context_limit : Int) (message_count : Nat) : Store :=
  if context_limit = 0 then store
  else
    storeSet store conversation_id
      (observed_state cfg store conversation_id prompt_tokens context_limit message_count)

/-- Embeds `on_response(ctx, request_data, response_data)` (lines 131-175), returning
the updated `chat_contexts` store (the response itself is returned unmodified
by the source). -/
def on_response (cfg : CompactionConfig) (ctx : Ctx) (store : Store)
    (req : RequestData) (resp : ResponseData) : Store :=
  if cfg.enabled = false then store
  else
    let usage := resp.usage.getD { prompt_tokens := none, total_tokens := none }
    let prompt_tokens := usage.prompt_tokens.getD 0
    let model := req.model.getD ""
    let provider_name := req.provider.getD ""
    let context_limit := get_model_context_limit ctx provider_name model
    observe cfg store (get_conversation_id req) prompt_tokens context_limit req.messages.length

/-- Embeds `on_request(ctx, request_data)` (lines 99-128), returning the possibly
rewritten request together with the updated `chat_contexts` store. -/
def on_request (cfg : CompactionConfig) (ctx : Ctx) (store : Store)
    (req : RequestData) : RequestData × Store :=
  if cfg.enabled = false then (req, store)
  else
    let conversation_id := get_conversation_id req
    match storeGet store conversation_id with
    | none => (req, store)
    | some st =>
      if st.needs_compaction then
        match compact_conversation ctx cfg req.messages.dropLast req.provider req.model with
        | some summary =>
          ({ req with messages := apply_compaction cfg req.messages summary },
           storeSet store conversation_id
             { st with needs_compaction := false,
                       compaction_count := st.compaction_count + 1 })
        | none => (req, store)
      else (req, store)

/-! ## Config persistence (src/__init__.py lines 43-67), JSON modelled
structurally: `save_config` serializes `asdict(config)`, `load_config` parses
the document and calls the dataclass constructor, falling back to defaults on
any failure. -/

/-- A JSON value as needed by the config document. -/
inductive JValue where
  | jstr (s : String)
  | jnum (q : ℚ)
  | jbool (b : Bool)
  | jnull
deriving DecidableEq, Repr

/-- Serialize an optional string field. -/
def jOfOptStr : Option String → JValue
  | none => JValue.jnull
  | some s => JValue.jstr s

/-- Embeds `asdict(config)` (line 64): the eight dataclass fields in order. -/
def asdict (c : CompactionConfig) : List (String × JValue) :=
  [("enabled", JValue.jbool c.enabled),
   ("threshold", JValue.jnum c.threshold),
   ("provider", jOfOptStr c.provider),
   ("model", jOfOptStr c.model),
   ("notify_user", JValue.jbool c.notify_user),
   ("use_simple_prompt", JValue.jbool c.use_simple_prompt),
   ("summary_prompt", JValue.jstr c.summary_prompt),
   ("simple_prompt", JValue.jstr c.simple_prompt)]

/-- The dataclass field names accepted by `CompactionConfig(**data)`. -/
def config_field_names : List String :=
  ["enabled", "threshold", "provider", "model", "notify_user",
   "use_simple_prompt", "summary_prompt", "simple_prompt"]

/-- Decode a boolean field, defaulting when the key is absent. -/
def decBoolField (d : List (String × JValue)) (k : String) (dflt : Bool) : Option Bool :=
  match d.lookup k with
  | none => some dflt
  | some (JValue.jbool b) => some b
  | some _ => none

/-- Decode a numeric field, defaulting when the key is absent. -/
def decNumField (d : List (String × JValue)) (k : String) (dflt : ℚ) : Option ℚ :=
  match d.lookup k with
  | none => some dflt
  | some (JValue.jnum q) => some q
  | some _ => none

/-- Decode a string field, defaulting when the key is absent. -/
def decStrField (d : List (String × JValue)) (k : String) (dflt : String) : Option String :=
  match d.lookup k with
  | none => some dflt
  | some (JValue.jstr s) => some s
  | some _ => none

/-- Decode an optional-string field (`null` meaning `None`), defaulting to
`None` when the key is absent. -/
def decOptStrField (d : List (String × JValue)) (k : String) : Option (Option String) :=
  match d.lookup k with
  | none => some none
  | some JValue.jnull => some none
  | some (JValue.jstr s) => some (some s)
  | some _ => none

/-- Embeds `CompactionConfig(**data)` (line 50): rejects unknown keys (Python raises
`TypeError`, caught by the surrounding handler), defaults missing ones. -/
def compaction_config_of_dict (d : List (String × JValue)) : Option CompactionConfig :=
  if d.all (fun kv => config_field_names.contains kv.1) then
    match decBoolField d "enabled" true, decNumField d "threshold" (4/5),
          decOptStrField d "provider", decOptStrField d "model",
          decBoolField d "notify_user" true, decBoolField d "use_simple_prompt" false,
          decStrField d "summary_prompt" default_summary_prompt,
          decStrField d "simple_prompt" default_simple_prompt with
    | some e, some t, some p, some m, some n, some u, some sp, some si =>
      some { enabled := e, threshold := t, provider := p, model := m,
             notify_user := n, use_simple_prompt := u,
             summary_prompt := sp, simple_prompt := si }
    | _, _, _, _, _, _, _, _ => none
  else none

/-- The state of the config file as `load_config` can encounter it. -/
inductive ConfigFile where
  | missing
  | corrupt
  | json_doc (d : List (String × JValue))
deriving DecidableEq, Repr

/-- Embeds `load_config(config_path)` (lines 43-56): defaults on a missing, corrupt,
or constructor-rejected document. -/
def load_config : ConfigFile → CompactionConfig
  | ConfigFile.missing => {}
  | ConfigFile.corrupt => {}
  | ConfigFile.json_doc d => (compaction_config_of_dict d).getD {}

/-- Embeds `save_config(config, config_path)` (lines 59-67): writes `asdict(config)`
as the JSON document. -/
def save_config (c : CompactionConfig) : ConfigFile :=
  ConfigFile.json_doc (asdict c)

/-! ## Content shapes and the command strategy

`src/simple_plugin_example.py` contains the trigger detection and the
content-extraction/mutation logic of the command path; the full command
strategy (summarize-and-replace) is described in the spec but its code is not
under `src/`, so it is modelled from the spec below. -/

/-- One item of a block-list content value: either a dict (whose `text` key
may be absent) or a plain item rendered by `str(...)`. -/
inductive Block where
  | obj (text : Option String)
  | plain (s : String)
deriving DecidableEq, Repr

/-- Message content: a plain string or an ordered list of blocks. -/
inductive Content where
  | str (s : String)
  | blocks (bs : List Block)
deriving DecidableEq, Repr

/-- A message in the command path (content may be structured). -/
structure BMsg where
  role : String
  content : Content
deriving DecidableEq, Repr

/-- Text extraction as in `simple_plugin_example.py` lines 36-44: for a
non-empty block list take the first block's `text` (or its `str(...)` form),
otherwise `str(content)` (which is the string itself, or `"[]"` for an empty
list). -/
def extract_text : Content → String
  | Content.str s => s
  | Content.blocks [] => "[]"
  | Content.blocks (Block.obj t :: _) => t.getD ""
  | Content.blocks (Block.plain s :: _) => s

/-- Primary-text mutation as in `simple_plugin_example.py` lines 53-64:
rewrite the first dict block's `text` field, or replace the first list item,
or replace the whole string. (Python would raise on an empty block list; the
trigger paths never reach that case.) -/
def set_primary_text : Content → String → Content
  | Content.blocks (Block.obj _ :: rest), t => Content.blocks (Block.obj (some t) :: rest)
  | Content.blocks (Block.plain _ :: rest), t => Content.blocks (Block.plain t :: rest)
  | Content.blocks [], _ => Content.blocks []
  | Content.str _, t => Content.str t

/-- Modelled from the spec: the fixed acknowledgment-request instruction the
command strategy writes into the triggering message on success (the code of
the full command strategy is not under `src/`). -/
def compact_ack_text : String :=
  "Please acknowledge the summarized context above and continue the conversation."

/-- Modelled from the spec: the fixed notice used when there is nothing to
compact (the code of the full command strategy is not under `src/`). -/
def nothing_to_compact_text : String :=
  "There is no previous conversation to compact."

/-- Modelled from the spec: the fixed notice used when summarization fails
(the code of the full command strategy is not under `src/`). -/
def compact_failed_text : String :=
  "Compaction failed; the conversation history was left unchanged."

/-- Modelled from the spec (section 4.6, HistoryRewriter command strategy):
the full `/compact` command filter, whose code is not under `src/`. Trigger
detection and content handling follow `simple_plugin_example.py` lines 25-49;
on trigger, the messages before the last are summarized and, on success, the
whole list is replaced by a single system summary message followed by the
rewritten triggering message. -/
def compact_command (summarize : List BMsg → Option String)
    (messages : List BMsg) : List BMsg :=
  match messages.getLast? with
  | none => messages
  | some last =>
    if last.role == "user" && strStarts "/compact" (pyStrip (extract_text last.content)) then
      if messages.dropLast = [] then
        [{ last with content := set_primary_text last.content nothing_to_compact_text }]
      else
        match summarize messages.dropLast with
        | some summary =>
          [{ role := "system",
             content := Content.str ("[Previous conversation summary]\n" ++ summary) },
           { last with content := set_primary_text last.content compact_ack_text }]
        | none =>
          messages.dropLast ++
            [{ last with content := set_primary_text last.content compact_failed_text }]
    else messages

/-! ## Store lemmas -/

/-- Reading back the key just written. -/
theorem storeGet_storeSet_self (s : Store) (k : String) (v : ConvState) :
    storeGet (storeSet s k v) k = some v := by
  induction s with
  | nil => simp [storeSet, storeGet]
  | cons hd tl ih =>
    obtain ⟨k', v'⟩ := hd
    by_cases h : k' = k
    · simp [storeSet, storeGet, h]
    · simp [storeSet, storeGet, h, ih]

/-- Writing one key leaves every other key unchanged. -/
theorem storeGet_storeSet_ne (s : Store) (k k' : String) (v : ConvState)
    (h : k ≠ k') : storeGet (storeSet s k v) k' = storeGet s k' := by
  induction s with
  | nil => simp [storeSet, storeGet, h]
  | cons hd tl ih =>
    obtain ⟨k0, v0⟩ := hd
    by_cases h0 : k0 = k
    · subst h0
      simp [storeSet, storeGet, h]
    · simp [storeSet, storeGet, h0, ih]

/-! ## Shared concrete contexts and helper lemmas -/

/-- A context with no provider access at all and a failing completion call. -/
def ctx_no_providers : Ctx :=
  { has_get_provider := false,
    get_provider := fun _ => Except.ok none,
    has_get_providers := false,
    get_providers := [],
    chat_completion := fun _ => Except.error () }

/-- The set of values the static heuristic table can produce. -/
def fallback_values : List Int := [4096, 8192, 16384, 32768, 100000, 128000, 200000]

set_option maxHeartbeats 4000000 in
/-- Every branch of the heuristic table returns one of `fallback_values`. -/
theorem estimate_fallback_mem (m : String) :
    estimate_context_limit_fallback m ∈ fallback_values := by
  unfold estimate_context_limit_fallback fallback_table
  repeat' split
  all_goals decide

/-! ## Claim C1 -/

/-- Claim C1: for a non-empty message list, the threshold-strategy rewrite
returns exactly the system messages in original order, then one synthetic
assistant message whose content starts with `"[Context Summary]\n\n" ++
summary`, then the last `min 2 (length messages)` messages of the original
unfiltered list. -/
theorem C1_apply_compaction_shape (cfg : CompactionConfig) (messages : List Msg)
    (summary : String) (hne : messages ≠ []) :
    apply_compaction cfg messages summary =
      messages.filter (fun m => m.role == "system") ++
        [{ role := "assistant",
           content := compaction_summary_content cfg messages summary }] ++
        lastN 2 messages ∧
    ∃ t, compaction_summary_content cfg messages summary =
      "[Context Summary]\n\n" ++ summary ++ t := by
  constructor
  · simp only [apply_compaction, lastN]
    by_cases h : messages.length > 2
    · rw [if_pos h, Nat.min_eq_left (by omega)]
    · rw [if_neg h, Nat.min_eq_right (by omega), Nat.sub_self, List.drop_zero]
  · simp only [compaction_summary_content]
    by_cases h : cfg.notify_user
    · exact ⟨compaction_notice messages.length, by rw [if_pos h, String.append_assoc]⟩
    · exact ⟨"", by rw [if_neg h, String.append_assoc, String.append_empty]⟩

/-- The concrete five-message conversation named by claim C1. -/
def C1_messages : List Msg :=
  [{ role := "system", content := "sys" },
   { role := "user", content := "u1" },
   { role := "assistant", content := "a1" },
   { role := "user", content := "u2" },
   { role := "assistant", content := "a2" }]

/-- Witness for claim C1 at the `[system, user, assistant, user, assistant]`
input: the rewrite yields heads ++ summary ++ last-two (4 messages, summary
second). -/
theorem C1_apply_compaction_shape_witness :
    apply_compaction {} C1_messages "SUM" =
      C1_messages.filter (fun m => m.role == "system") ++
        [{ role := "assistant",
           content := compaction_summary_content {} C1_messages "SUM" }] ++
        lastN 2 C1_messages ∧
    ∃ t, compaction_summary_content {} C1_messages "SUM" =
      "[Context Summary]\n\n" ++ "SUM" ++ t :=
  C1_apply_compaction_shape {} C1_messages "SUM" (by decide)

/-! ## Claim C6 -/

/-- Claim C6: the heuristic table is order-sensitive; `"gpt-4-turbo-preview"`
resolves to 128000 (not 8192), both directly and through the resolver when no
provider data is available. -/
theorem C6_turbo_branch_first :
    estimate_context_limit_fallback "gpt-4-turbo-preview" = 128000 ∧
    get_model_context_limit ctx_no_providers "" "gpt-4-turbo-preview" = 128000 ∧
    estimate_context_limit_fallback "gpt-4-turbo-preview" ≠ 8192 :=
  ⟨by decide, by decide, by decide⟩

/-! ## Claim C8 -/

/-- Claim C8: with a resolved context limit of zero, the usage-monitoring
step of `on_response` is a no-op: no division happens and the conversation
store is returned entirely unchanged. -/
theorem C8_zero_limit_noop (cfg : CompactionConfig) (store : Store)
    (conversation_id : String) (prompt_tokens : Int) (message_count : Nat) :
    observe cfg store conversation_id prompt_tokens 0 message_count = store := by
  simp [observe]

/-! ## Claim C9 -/

/-- Claim C9: saving a `CompactionConfig` and loading it back yields a config
equal to the original, field for field over all eight fields. -/
theorem C9_config_round_trip (c : CompactionConfig) :
    load_config (save_config c) = c ∧
    (load_config (save_config c)).enabled = c.enabled ∧
    (load_config (save_config c)).threshold = c.threshold ∧
    (load_config (save_config c)).provider = c.provider ∧
    (load_config (save_config c)).model = c.model ∧
    (load_config (save_config c)).notify_user = c.notify_user ∧
    (load_config (save_config c)).use_simple_prompt = c.use_simple_prompt ∧
    (load_config (save_config c)).summary_prompt = c.summary_prompt ∧
    (load_config (save_config c)).simple_prompt = c.simple_prompt := by
  obtain ⟨e, t, p, m, n, u, sp, si⟩ := c
  rcases p with _ | ps <;> rcases m with _ | ms <;>
    exact ⟨rfl, rfl, rfl, rfl, rfl, rfl, rfl, rfl, rfl⟩

/-! ## Claim C10 -/

/-- All `limit.context` values a provider can report are non-negative. -/
def ProviderNonneg (p : Provider) : Prop :=
  ∀ m mi c, p.model_info m = Except.ok (some mi) → mi.limit_context = some c → 0 ≤ c

/-- Every provider reachable through the context reports non-negative
context values. -/
def CtxNonneg (ctx : Ctx) : Prop :=
  (∀ n p, ctx.get_provider n = Except.ok (some p) → ProviderNonneg p) ∧
  (∀ e ∈ ctx.get_providers, ProviderNonneg e.2)

/-- A successful scan returns a strictly positive value when providers only
report non-negative ones (the scan skips zero, which Python treats as falsy). -/
theorem scan_providers_pos (l : List (String × Provider)) (m : String) (c : Int)
    (hl : ∀ e ∈ l, ProviderNonneg e.2)
    (h : scan_providers l m = Except.ok (some c)) : 0 < c := by
  induction l with
  | nil => simp [scan_providers] at h
  | cons e rest ih =>
    obtain ⟨n, p⟩ := e
    have hrest : ∀ e ∈ rest, ProviderNonneg e.2 := fun e he => hl e (by simp [he])
    by_cases hmi : p.has_model_info = true
    · simp only [scan_providers, hmi, if_true] at h
      cases hpm : p.model_info m with
      | error u => rw [hpm] at h; cases h
      | ok mio =>
        rw [hpm] at h
        simp only [Except.bind] at h
        cases mio with
        | none => exact ih hrest h
        | some mi =>
          cases hlc : mi.limit_context with
          | none => simp only [hlc] at h; exact ih hrest h
          | some c0 =>
            simp only [hlc] at h
            by_cases hc0 : c0 ≠ 0
            · rw [if_pos hc0] at h
              cases h
              have hge : 0 ≤ c := hl (n, p) (by simp) m mi c hpm hlc
              omega
            · rw [if_neg hc0] at h; exact ih hrest h
    · simp only [scan_providers, hmi, if_false] at h
      simp only [Bool.false_eq_true, if_false] at h
      exact ih hrest h

/-- A successful named-provider lookup returns a strictly positive value when
providers only report non-negative ones. -/
theorem named_provider_step_pos (ctx : Ctx) (pn m : String) (c : Int)
    (hn : CtxNonneg ctx)
    (h : named_provider_step ctx pn m = Except.ok (some c)) : 0 < c := by
  by_cases hga : ctx.has_get_provider = true
  · simp only [named_provider_step, hga, if_true] at h
    by_cases hpn : pn ≠ ""
    · rw [if_pos hpn] at h
      cases hgp : ctx.get_provider pn with
      | error u => rw [hgp] at h; cases h
      | ok po =>
        rw [hgp] at h
        cases po with
        | none => simp [Except.bind] at h
        | some p =>
          simp only [Except.bind] at h
          by_cases hmi : p.has_model_info = true
          · rw [if_pos hmi] at h
            cases hpm : p.model_info m with
            | error u => rw [hpm] at h; cases h
            | ok mio =>
              rw [hpm] at h
              simp only [Except.map] at h
              cases mio with
              | none => simp at h
              | some mi =>
                cases hlc : mi.limit_context with
                | none => simp only [hlc] at h; cases h
                | some c0 =>
                  simp only [hlc] at h
                  by_cases hc0 : c0 ≠ 0
                  · rw [if_pos hc0] at h
                    simp only [Except.ok.injEq, Option.some.injEq] at h
                    have hge : 0 ≤ c0 := hn.1 pn p hgp m mi c0 hpm hlc
                    omega
                  · rw [if_neg hc0] at h; cases h
          · rw [if_neg hmi] at h; cases h
    · rw [if_neg hpn] at h; simp [Except.bind] at h
  · simp only [named_provider_step, hga] at h
    simp only [Bool.false_eq_true, if_false] at h
    cases h

/-- Claim C10: the heuristic fallback only returns the seven positive table
values, every table value is attained, and — provided all provider-supplied
context values are non-negative — the resolver's result is strictly positive,
so the `context_limit == 0` guard in `on_response` can never fire. -/
theorem C10_resolver_positive :
    (∀ m, estimate_context_limit_fallback m ∈ fallback_values) ∧
    (∀ v ∈ fallback_values, ∃ m, estimate_context_limit_fallback m = v) ∧
    (∀ ctx pn m, CtxNonneg ctx → 0 < get_model_context_limit ctx pn m) := by
  refine ⟨estimate_fallback_mem, ?_, ?_⟩
  · intro v hv
    simp only [fallback_values, List.mem_cons, List.not_mem_nil, or_false] at hv
    rcases hv with h | h | h | h | h | h | h
    · exact ⟨"gpt-3.5-turbo", by rw [h]; decide⟩
    · exact ⟨"", by rw [h]; decide⟩
    · exact ⟨"gpt-3.5-turbo-16k", by rw [h]; decide⟩
    · exact ⟨"gpt-4-32k", by rw [h]; decide⟩
    · exact ⟨"claude-2", by rw [h]; decide⟩
    · exact ⟨"gpt-4-turbo", by rw [h]; decide⟩
    · exact ⟨"claude-3-opus", by rw [h]; decide⟩
  · intro ctx pn m hn
    have hfb : 0 < estimate_context_limit_fallback m := by
      have := estimate_fallback_mem m
      simp only [fallback_values, List.mem_cons, List.not_mem_nil, or_false] at this
      rcases this with h | h | h | h | h | h | h <;> rw [h] <;> decide
    unfold get_model_context_limit
    cases hps : provider_steps ctx pn m with
    | error u => exact hfb
    | ok r =>
      cases r with
      | none => exact hfb
      | some c =>
        simp only []
        unfold provider_steps at hps
        cases hs1 : named_provider_step ctx pn m with
        | error u => rw [hs1] at hps; cases hps
        | ok r1 =>
          rw [hs1] at hps
          cases r1 with
          | some c1 =>
            simp only [Except.bind] at hps
            cases hps
            exact named_provider_step_pos ctx pn m c hn hs1
          | none =>
            simp only [Except.bind] at hps
            by_cases hgp : ctx.has_get_providers = true
            · rw [if_pos hgp] at hps
              exact scan_providers_pos ctx.get_providers m c hn.2 hps
            · rw [if_neg hgp] at hps; cases hps

/-- Witness for claim C10: with no providers registered, the resolver still
returns a positive limit for an unknown model name. -/
theorem C10_resolver_positive_witness :
    0 < get_model_context_limit ctx_no_providers "" "mystery-model" :=
  C10_resolver_positive.2.2 ctx_no_providers "" "mystery-model"
    ⟨fun n p h => by simp [ctx_no_providers] at h,
     fun e he => by simp [ctx_no_providers] at he⟩

/-! ## Claim C5 -/

/-- A provider whose `model_info` raises an exception. -/
def raising_provider : Provider :=
  { has_model_info := true, model_info := fun _ => Except.error () }

/-- A provider that reports a context limit of 777 for every model. -/
def data_provider : Provider :=
  { has_model_info := true,
    model_info := fun _ => Except.ok (some { limit_context := some 777 }) }

/-- A context in which the named provider raises while another registered
provider holds the data: used to separate "fall through to the next step"
from what the code actually does. -/
def ctxC5 : Ctx :=
  { has_get_provider := true,
    get_provider := fun _ => Except.ok (some raising_provider),
    has_get_providers := true,
    get_providers := [("other", data_provider)],
    chat_completion := fun _ => Except.error () }

/-- Counterexample for claim C5: when the named provider raises, the code
jumps straight to the heuristic table (8192 for an unknown model) even though
the claimed fall-through to the all-provider scan would have found 777. -/
theorem C5_counterexample :
    get_model_context_limit ctxC5 "openai" "mystery-model" = 8192 ∧
    scan_providers (Ctx.get_providers ctxC5) "mystery-model" = Except.ok (some 777) ∧
    (8192 : Int) ≠ 777 :=
  ⟨by decide, rfl, by decide⟩

/-- Claim C5 (amended): any provider exception is caught and resolution falls
back directly to the static heuristic table — skipping any remaining provider
step — and no error ever propagates: the result is either a limit reported by
the provider steps or the heuristic estimate. -/
theorem C5_exceptions_fall_back (ctx : Ctx) (pn m : String) :
    (∃ c, provider_steps ctx pn m = Except.ok (some c) ∧
       get_model_context_limit ctx pn m = c) ∨
    get_model_context_limit ctx pn m = estimate_context_limit_fallback m := by
  cases h : provider_steps ctx pn m with
  | error u => right; unfold get_model_context_limit; rw [h]
  | ok r =>
    cases r with
    | none => right; unfold get_model_context_limit; rw [h]
    | some c => left; exact ⟨c, rfl, by unfold get_model_context_limit; rw [h]⟩

/-! ## Claim C7 -/

/-- The completion response used to exhibit the missing trim: its first
choice's text carries surrounding whitespace. -/
def respC7 : SummaryResponse :=
  { choices := some [{ message := some { content := some " hello " } }] }

/-- A context whose completion call returns `respC7`. -/
def ctxC7 : Ctx :=
  { has_get_provider := false,
    get_provider := fun _ => Except.ok none,
    has_get_providers := false,
    get_providers := [],
    chat_completion := fun _ => Except.ok respC7 }

/-- Counterexample for claim C7: the summarizer returns the first choice's
text as-is, not trimmed — on `" hello "` it returns `some " hello "`, while
the claimed trimming would return `some "hello"`. -/
theorem C7_counterexample :
    compact_conversation ctxC7 {} [] none none = some " hello " ∧
    pyStrip " hello " = "hello" ∧
    (some " hello " : Option String) ≠ some (pyStrip " hello ") :=
  ⟨rfl, by decide, by decide⟩

/-- Claim C7 (amended): the summarizer returns the first choice's message
text untrimmed when it is non-empty, and returns `none` (a value, never an
escaping exception) when the completion call raises, when the extraction
raises, or when the extracted text is empty. -/
theorem C7_summarizer_behavior (ctx : Ctx) (cfg : CompactionConfig)
    (messages : List Msg) (provider model : Option String) :
    (ctx.chat_completion (build_summary_request cfg messages provider model) =
        Except.error () →
      compact_conversation ctx cfg messages provider model = none) ∧
    (∀ resp s,
      ctx.chat_completion (build_summary_request cfg messages provider model) =
        Except.ok resp →
      extract_summary_content resp = Except.ok s → s ≠ "" →
      compact_conversation ctx cfg messages provider model = some s) ∧
    (∀ resp,
      ctx.chat_completion (build_summary_request cfg messages provider model) =
        Except.ok resp →
      extract_summary_content resp = Except.ok "" ∨
        extract_summary_content resp = Except.error () →
      compact_conversation ctx cfg messages provider model = none) := by
  refine ⟨?_, ?_, ?_⟩
  · intro h
    unfold compact_conversation
    simp only [h]
  · intro resp s h1 h2 h3
    unfold compact_conversation
    simp only [h1, h2]
    rw [if_pos h3]
  · intro resp h1 h2
    unfold compact_conversation
    rcases h2 with h2 | h2 <;> simp only [h1, h2]
    simp

/-- Witness for the amended claim C7: a successful call whose extracted text
is `" hello "` makes the summarizer return exactly that untrimmed text. -/
theorem C7_summarizer_behavior_witness :
    compact_conversation ctxC7 {} [] none none = some " hello " :=
  (C7_summarizer_behavior ctxC7 {} [] none none).2.1 respC7 " hello " rfl rfl (by decide)

/-! ## Claim C2 -/

/-- A store in which conversation `"c"` is already flagged for compaction. -/
def C2_store : Store :=
  [("c", { usage_ratio := 9/10, needs_compaction := true,
           message_count := 3, compaction_count := 0 })]

/-- Counterexample for claim C2: observing conversation `"c"` (already
flagged) with 1 prompt token against a limit of 100 leaves the flag true even
though the freshly recorded ratio 1/100 is below the default threshold 4/5 —
so "needs_compaction is true iff usage_ratio >= threshold" fails. -/
theorem C2_counterexample :
    (storeGet (observe {} C2_store "c" 1 100 3) "c").map
        (fun st => st.needs_compaction) = some true ∧
    (storeGet (observe {} C2_store "c" 1 100 3) "c").map
        (fun st => st.usage_ratio) = some (1/100) ∧
    ¬ (CompactionConfig.threshold {} ≤ (1 : ℚ)/100) := by
  have ht : ¬ (CompactionConfig.threshold {} ≤ (1 : ℚ)/100) := by
    show ¬ ((4 : ℚ)/5 ≤ 1/100)
    norm_num
  have hobs : observe {} C2_store "c" 1 100 3 =
      [("c", { usage_ratio := 1/100, needs_compaction := true,
               message_count := 3, compaction_count := 0 })] := by
    unfold observe observed_state
    rw [if_neg (by norm_num : ¬ (100 : Int) = 0)]
    have hq : ((1 : Int) : ℚ) / ((100 : Int) : ℚ) = 1/100 := by norm_num
    simp only [C2_store, storeGet, storeSet, if_pos rfl, hq]
    rw [if_neg (by norm_num : ¬ (CompactionConfig.threshold {} ≤ (1 : ℚ)/100))]
    simp
  rw [hobs]
  exact ⟨rfl, rfl, ht⟩

/-- Claim C2 (amended): for a non-zero context limit the monitor records the
exact ratio `prompt_tokens / context_limit` (as a rational; Python computes a
float) and the message count; after the observation, `needs_compaction` is
true iff the new ratio reaches the threshold or the flag was already true
beforehand (for a conversation without prior state: iff the ratio reaches the
threshold). Moreover the request filter never sets the flag to true, so the
monitor remains the only writer of `needs_compaction = true`. -/
theorem C2_monitor_behavior :
    (∀ (cfg : CompactionConfig) (store : Store) (cid : String)
        (pt limit : Int) (mc : Nat),
      limit ≠ 0 →
      storeGet (observe cfg store cid pt limit mc) cid =
        some (observed_state cfg store cid pt limit mc) ∧
      (observed_state cfg store cid pt limit mc).usage_ratio =
        (pt : ℚ) / (limit : ℚ) ∧
      (observed_state cfg store cid pt limit mc).message_count = mc ∧
      ((observed_state cfg store cid pt limit mc).needs_compaction = true ↔
        (cfg.threshold ≤ (pt : ℚ) / (limit : ℚ) ∨
          ∃ st0, storeGet store cid = some st0 ∧ st0.needs_compaction = true))) ∧
    (∀ (cfg : CompactionConfig) (ctx : Ctx) (store : Store) (req : RequestData)
        (k : String) (st' : ConvState),
      storeGet ((on_request cfg ctx store req).2) k = some st' →
      st'.needs_compaction = true →
      ∃ st0, storeGet store k = some st0 ∧ st0.needs_compaction = true) := by
  constructor
  · intro cfg store cid pt limit mc hl
    refine ⟨?_, ?_, ?_, ?_⟩
    · unfold observe
      rw [if_neg hl]
      exact storeGet_storeSet_self store cid _
    · unfold observed_state
      cases storeGet store cid <;> dsimp only [] <;> split <;> rfl
    · unfold observed_state
      cases storeGet store cid <;> dsimp only [] <;> split <;> rfl
    · unfold observed_state
      cases hsg : storeGet store cid with
      | none =>
        simp only []
        split
        · rename_i hth
          simp [hth, hsg]
        · rename_i hth
          simp [hth, hsg]
      | some st0 =>
        simp only []
        split
        · rename_i hth
          simp [hth, hsg]
        · rename_i hth
          simp [hth, hsg]
  · intro cfg ctx store req k st' h1 h2
    unfold on_request at h1
    by_cases he : cfg.enabled = false
    · rw [if_pos he] at h1
      exact ⟨st', h1, h2⟩
    · rw [if_neg he] at h1
      cases hsg : storeGet store (get_conversation_id req) with
      | none =>
        simp only [hsg] at h1
        exact ⟨st', h1, h2⟩
      | some st =>
        simp only [hsg] at h1
        by_cases hnc : st.needs_compaction = true
        · rw [if_pos hnc] at h1
          cases hcc : compact_conversation ctx cfg req.messages.dropLast
              req.provider req.model with
          | none =>
            simp only [hcc] at h1
            exact ⟨st', h1, h2⟩
          | some summary =>
            simp only [hcc] at h1
            by_cases hk : get_conversation_id req = k
            · subst hk
              rw [storeGet_storeSet_self] at h1
              cases h1
              simp at h2
            · rw [storeGet_storeSet_ne _ _ _ _ hk] at h1
              exact ⟨st', h1, h2⟩
        · rw [if_neg hnc] at h1
          exact ⟨st', h1, h2⟩

/-- Witness for the amended claim C2: a fresh conversation observed at
900/1000 tokens against the default 4/5 threshold gets the exact ratio 9/10
recorded and the flag armed. -/
theorem C2_monitor_behavior_witness :
    storeGet (observe {} [] "c" 900 1000 4) "c" =
      some (observed_state {} [] "c" 900 1000 4) ∧
    (observed_state {} [] "c" 900 1000 4).usage_ratio =
      ((900 : Int) : ℚ) / ((1000 : Int) : ℚ) ∧
    (observed_state {} [] "c" 900 1000 4).message_count = 4 ∧
    ((observed_state {} [] "c" 900 1000 4).needs_compaction = true ↔
      (CompactionConfig.threshold {} ≤ ((900 : Int) : ℚ) / ((1000 : Int) : ℚ) ∨
        ∃ st0, storeGet ([] : Store) "c" = some st0 ∧ st0.needs_compaction = true)) :=
  C2_monitor_behavior.1 {} [] "c" 900 1000 4 (by norm_num)

/-! ## Claim C3 -/

/-- Claim C3: in the threshold path, when summarization fails the request's
message list, the `needs_compaction` flag and `compaction_count` are all left
exactly as they were (the whole request/store pair is unchanged); and the
flag can only transition to false together with a successful summary whose
rewrite was applied to the message list. -/
theorem C3_failed_summary_is_noop (cfg : CompactionConfig) (ctx : Ctx)
    (store : Store) (req : RequestData) :
    (compact_conversation ctx cfg req.messages.dropLast req.provider req.model = none →
      on_request cfg ctx store req = (req, store)) ∧
    (∀ st', storeGet ((on_request cfg ctx store req).2) (get_conversation_id req) =
        some st' →
      st'.needs_compaction = false →
      (∀ st0, storeGet store (get_conversation_id req) = some st0 →
        st0.needs_compaction = true) →
      ∃ s, compact_conversation ctx cfg req.messages.dropLast req.provider req.model =
          some s ∧
        (on_request cfg ctx store req).1.messages = apply_compaction cfg req.messages s) := by
  constructor
  · intro hfail
    unfold on_request
    by_cases he : cfg.enabled = false
    · rw [if_pos he]
    · rw [if_neg he]
      cases hsg : storeGet store (get_conversation_id req) with
      | none => simp only [hsg]
      | some st =>
        simp only [hsg]
        by_cases hnc : st.needs_compaction = true
        · rw [if_pos hnc, hfail]
        · rw [if_neg hnc]
  · intro st' h1 h2 hall
    unfold on_request at h1 ⊢
    by_cases he : cfg.enabled = false
    · rw [if_pos he] at h1
      exact absurd (hall st' h1) (by simp [h2])
    · rw [if_neg he] at h1
      rw [if_neg he]
      cases hsg : storeGet store (get_conversation_id req) with
      | none =>
        simp only [hsg] at h1
        cases h1
      | some st =>
        simp only [hsg] at h1 ⊢
        by_cases hnc : st.needs_compaction = true
        · rw [if_pos hnc] at h1
          rw [if_pos hnc]
          cases hcc : compact_conversation ctx cfg req.messages.dropLast
              req.provider req.model with
          | none =>
            simp only [hcc] at h1
            exact absurd (hall st' h1) (by simp [h2])
          | some summary =>
            simp only [hcc]
            exact ⟨summary, rfl, rfl⟩
        · rw [if_neg hnc] at h1
          have := hall st' h1
          rw [h2] at this
          cases this

/-- The request used to witness claim C3. -/
def C3_req : RequestData :=
  { provider := none, model := none,
    messages := [{ role := "user", content := "hi" }] }

/-- A store in which `C3_req`'s conversation is flagged for compaction. -/
def C3_store : Store :=
  [(get_conversation_id C3_req,
    { usage_ratio := 9/10, needs_compaction := true,
      message_count := 1, compaction_count := 0 })]

/-- Witness for claim C3: with a completion call that raises, the triggering
request and the flagged store pass through `on_request` unchanged. -/
theorem C3_failed_summary_is_noop_witness :
    on_request {} ctx_no_providers C3_store C3_req = (C3_req, C3_store) :=
  (C3_failed_summary_is_noop {} ctx_no_providers C3_store C3_req).1 rfl

/-! ## Claim C4 -/

/-- Claim C4 (spec-modelled): in the command strategy, when the last message
is a user message whose stripped text starts with `/compact`, the preceding
slice is non-empty and summarization succeeds, the result is exactly two
messages: the system summary message, then the rewritten triggering user
message carrying the fixed acknowledgment-request text. -/
theorem C4_command_success_shape (summarize : List BMsg → Option String)
    (messages : List BMsg) (last : BMsg) (s : String)
    (hlast : messages.getLast? = some last)
    (hrole : last.role = "user")
    (hcmd : strStarts "/compact" (pyStrip (extract_text last.content)) = true)
    (hhist : messages.dropLast ≠ [])
    (hsum : summarize messages.dropLast = some s) :
    compact_command summarize messages =
      [{ role := "system",
         content := Content.str ("[Previous conversation summary]\n" ++ s) },
       { last with content := set_primary_text last.content compact_ack_text }] ∧
    (compact_command summarize messages).length = 2 := by
  have hres : compact_command summarize messages =
      [{ role := "system",
         content := Content.str ("[Previous conversation summary]\n" ++ s) },
       { last with content := set_primary_text last.content compact_ack_text }] := by
    unfold compact_command
    rw [hlast]
    simp only []
    rw [if_pos (by simp [hrole, hcmd]), if_neg hhist, hsum]
  exact ⟨hres, by rw [hres]; rfl⟩

/-- The message list used to witness claim C4. -/
def C4_messages : List BMsg :=
  [{ role := "user", content := Content.str "hello there" },
   { role := "assistant", content := Content.str "hi" },
   { role := "user", content := Content.str "  /compact " }]

/-- Witness for claim C4: a three-message conversation ending in `/compact`
with a succeeding summarizer collapses to the two-message shape. -/
theorem C4_command_success_shape_witness :
    compact_command (fun _ => some "S") C4_messages =
      [{ role := "system",
         content := Content.str ("[Previous conversation summary]\n" ++ "S") },
       { role := "user",
         content := set_primary_text (Content.str "  /compact ") compact_ack_text }] ∧
    (compact_command (fun _ => some "S") C4_messages).length = 2 :=
  C4_command_success_shape (fun _ => some "S") C4_messages
    { role := "user", content := Content.str "  /compact " } "S"
    (by decide) rfl (by decide) (by decide) rfl
